import Mathlib

/-!
Verification development for the SoftWake alarm application (`App.tsx`).

The relevant program logic is shallowly embedded below:
* instants are modeled as natural numbers of milliseconds since an epoch,
  with a single local wall clock decomposed as fixed 86400000-ms days
  (`weekday = epoch day mod 7`, matching the `Date` arithmetic the code
  performs via `setDate`/`setHours`; no DST is modeled, per the spec's
  single-wall-clock assumption);
* `Math.random()` draws are passed in explicitly as rationals in `[0,1)`;
* JavaScript `Math.floor`/`Math.round` become `Int.floor` and
  `fun q => Int.floor (q + 1/2)` (JS rounds ties toward positive infinity);
* the React component state touched by the trigger loop and the dismissal
  handlers is collected in one `AppState` record, and each handler becomes a
  pure state transformer;
* `expo-av` sound objects become natural-number handles: a created sound is
  appended to the list of playing handles and keeps playing until the handle
  referenced by `soundRef` is stopped, exactly mirroring how the code only
  ever stops the sound currently held in `soundRef.current`.
-/

namespace SoftWake

/-- Wake intensity, from the `WakeIntensity` union type. -/
inductive WakeIntensity where
  | whisper
  | gentle
  | moderate
  | energetic
  deriving DecidableEq, Repr

/-- Alarm tone, from the `AlarmSound` union type. -/
inductive AlarmSound where
  | sunrise
  | ocean
  | forest
  | chimes
  | piano
  | birds
  deriving DecidableEq, Repr

/-- Dismissal method, from the `DismissType` union type. -/
inductive DismissType where
  | simple
  | breathing
  | affirmation
  | math
  | shake
  deriving DecidableEq, Repr

/-- One configured alarm, from the `Alarm` type in `App.tsx`. -/
structure Alarm where
  id : String
  hour : Nat
  minute : Nat
  days : List Bool
  enabled : Bool
  label : String
  snooze : Nat
  wakeIntensity : WakeIntensity
  sound : AlarmSound
  dismissType : DismissType
  deriving DecidableEq, Repr

/-- One recorded sleep interval, from the `SleepEntry` type: `bedtime` and
`wakeTime` are epoch-millisecond timestamps, `sleepDuration` is minutes. -/
structure SleepEntry where
  id : String
  bedtime : Nat
  wakeTime : Nat
  sleepDuration : Nat
  deriving DecidableEq, Repr

/-- JavaScript `Math.round`: rounds half toward positive infinity. -/
def jsRound (q : ℚ) : ℤ := Int.floor (q + 1 / 2)

/-- Milliseconds in one minute. -/
def msPerMinute : Nat := 60000

/-- Milliseconds in one hour. -/
def msPerHour : Nat := 3600000

/-- Milliseconds in one day. -/
def msPerDay : Nat := 86400000

/-- Day index of an epoch-millisecond instant (local `Date` day). -/
def epochDay (t : Nat) : Nat := t / msPerDay

/-- `Date.getDay()`: weekday of an instant, with epoch day 0 taken as
weekday 0; only the congruence `weekday (t + 1 day) = weekday t + 1 (mod 7)`
matters to the embedded code, and it holds of the real local calendar. -/
def weekdayOf (t : Nat) : Nat := epochDay t % 7

/-- `Date.getHours()` of an epoch-millisecond instant. -/
def dateHours (t : Nat) : Nat := t / msPerHour % 24

/-- `Date.getMinutes()` of an epoch-millisecond instant. -/
def dateMinutes (t : Nat) : Nat := t / msPerMinute % 60

/-!
## Math problem generation (`generateMathProblem`, App.tsx lines 348-379)
-/

/-- A generated arithmetic problem, from the `MathProblem` type. The source
stores the operands inside the rendered `question` string; the embedding keeps
the chosen operator symbol and both operands alongside the answer so that the
rendered string `"{a} {op} {b}"` is recoverable as `questionOf`. -/
structure MathProblem where
  opSymbol : String
  a : ℤ
  b : ℤ
  answer : ℤ
  deriving DecidableEq, Repr

/-- The `question` string the source renders from a generated problem. -/
def questionOf (p : MathProblem) : String :=
  toString p.a ++ " " ++ p.opSymbol ++ " " ++ toString p.b

/-- `generateMathProblem`: `operations = ['+','-','*']`; the operator is
`operations[Math.floor(Math.random()*3)]`; per-branch operand draws follow the
source (`Math.floor(Math.random()*k) + c`), with the unreachable `default`
branch returning `10, 10, 20`. The three `Math.random()` results are the
parameters `rop`, `ra`, `rb`. -/
def generateMathProblem (rop ra rb : ℚ) : MathProblem :=
  let operation := (["+", "-", "*"]).getD (Int.floor (rop * 3)).toNat "undefined"
  if operation = "+" then
    let a := Int.floor (ra * 50) + 10
    let b := Int.floor (rb * 50) + 10
    { opSymbol := "+", a := a, b := b, answer := a + b }
  else if operation = "-" then
    let a := Int.floor (ra * 50) + 30
    let b := Int.floor (rb * 30) + 1
    { opSymbol := "-", a := a, b := b, answer := a - b }
  else if operation = "*" then
    let a := Int.floor (ra * 12) + 2
    let b := Int.floor (rb * 12) + 2
    { opSymbol := "*", a := a, b := b, answer := a * b }
  else
    { opSymbol := operation, a := 10, b := 10, answer := 20 }

/-!
## Sound configuration (`SOUND_CONFIGS`, `WAKE_INTENSITY_OPTIONS`)
-/

/-- Playback configuration for one alarm tone: a playback rate and an
optional loud/quiet phase pattern in milliseconds (`null` becomes `none`). -/
structure SoundConfig where
  rate : ℚ
  pattern : Option (List Nat)
  deriving DecidableEq, Repr

/-- `SOUND_CONFIGS` (App.tsx lines 754-761). -/
def soundConfig : AlarmSound → SoundConfig
  | .sunrise => { rate := 1, pattern := none }
  | .ocean => { rate := 3 / 4, pattern := some [3000, 1500] }
  | .forest => { rate := 6 / 5, pattern := some [500, 200, 500, 200, 500, 1500] }
  | .chimes => { rate := 11 / 10, pattern := some [400, 600, 400, 600, 400, 1200] }
  | .piano => { rate := 17 / 20, pattern := some [2000, 800] }
  | .birds => { rate := 7 / 5, pattern := some [300, 150, 300, 150, 300, 150, 300, 1000] }

/-- Initial playback volume for a wake intensity, from
`WAKE_INTENSITY_OPTIONS` (whisper 0.3, gentle 0.5, moderate 0.75,
energetic 1.0). -/
def intensityVolume : WakeIntensity → ℚ
  | .whisper => 3 / 10
  | .gentle => 1 / 2
  | .moderate => 3 / 4
  | .energetic => 1

/-- The quiet-phase volume the pattern timer uses instead of full silence
(`setVolumeAsync(0.05)`, App.tsx line 804). -/
def QUIET_VOLUME : ℚ := 1 / 20

/-!
## Pattern scheduler (`playAlarmSound` pattern timer, App.tsx lines 791-814)

The repeating phase timer is embedded as a step function on the state the
callback closes over: `patternIndexRef`, the captured `isPlaying` flag, and
the audible volume of the playing sound. One `patternStep` is one firing of
the `runPattern` callback: it reads the current phase duration
`pattern[patternIndex % pattern.length]`, sets the volume to the initial
volume when `isPlaying` and to `QUIET_VOLUME` otherwise, flips `isPlaying`,
advances the index, and returns the delay used to arm the next timeout.
-/

/-- State of the pattern timer callback. -/
structure PatternState where
  patternIndex : Nat
  isPlaying : Bool
  volume : ℚ
  deriving DecidableEq, Repr

/-- State right after `playAlarmSound` armed the first timeout: index 0,
`isPlaying = true`, sound playing at the initial volume. The first timeout
delay is `pattern[0]`. -/
def patternStart (initialVolume : ℚ) : PatternState :=
  { patternIndex := 0, isPlaying := true, volume := initialVolume }

/-- One firing of the `runPattern` callback; returns the new state and the
delay scheduled for the next firing. -/
def patternStep (pattern : List Nat) (initialVolume : ℚ) (s : PatternState) :
    PatternState × Nat :=
  let duration := pattern.getD (s.patternIndex % pattern.length) 0
  let newVolume := if s.isPlaying then initialVolume else QUIET_VOLUME
  ({ patternIndex := s.patternIndex + 1, isPlaying := !s.isPlaying, volume := newVolume },
   duration)

/-- State after `n` firings of the pattern callback. -/
def patternRun (pattern : List Nat) (initialVolume : ℚ) : Nat → PatternState
  | 0 => patternStart initialVolume
  | n + 1 => (patternStep pattern initialVolume (patternRun pattern initialVolume n)).1

/-!
## Application state and the handlers that act on it
-/

/-- Phase of the breathing mission. -/
inductive BreathingPhase where
  | inhale
  | hold
  | exhale
  | done
  deriving DecidableEq, Repr

/-- The fixed affirmation phrase set (`AFFIRMATIONS`). -/
def AFFIRMATIONS : List String :=
  ["I am ready for a great day",
   "Today I choose positivity",
   "I am grateful and energized",
   "I welcome this new day"]

/-- The component state touched by the trigger loop and the dismissal
handlers. `soundRef` and `playingHandles` model `expo-av` sounds: a handle
enters `playingHandles` when created and leaves it only when the handle held
in `soundRef` is stopped, so a handle orphaned by overwriting `soundRef`
keeps playing. `snoozePending` records a scheduled snooze re-trigger
(alarm snapshot and delay in milliseconds). `triggerLog` is a ghost field
recording each `(alarm.id, hour, minute)` at which the tick effect invoked
`triggerAlarm`; no handler reads it. -/
structure AppState where
  alarms : List Alarm
  alarmScreenVisible : Bool
  activeAlarm : Option Alarm
  mathProblem : MathProblem
  userAnswer : String
  wrongAnswer : Bool
  affirmationText : String
  targetAffirmation : String
  breathingPhase : BreathingPhase
  breathingCycle : Nat
  breathingTimerArmed : Bool
  shakeCount : Nat
  lastTriggered : String
  soundRef : Option Nat
  playingHandles : List Nat
  nextHandle : Nat
  patternTimerArmed : Bool
  patternIndex : Nat
  pendingWakeTime : Option Nat
  bedtimeModalVisible : Bool
  bedtimeHour : Nat
  bedtimeMinute : Nat
  sleepData : List SleepEntry
  snoozePending : Option (Alarm × Nat)
  triggerLog : List (String × Nat × Nat)
  deriving DecidableEq, Repr

/-- `playAlarmSound` (App.tsx lines 766-819): creates and plays a new
looping sound at the intensity's initial volume, stores it in `soundRef`
(without stopping any previous sound), and, when the tone has a pattern,
arms the pattern timer at index 0. -/
def playAlarmSound (wakeIntensity : WakeIntensity) (soundType : AlarmSound)
    (s : AppState) : AppState :=
  let config := soundConfig soundType
  let s1 := { s with
    soundRef := some s.nextHandle,
    playingHandles := s.playingHandles ++ [s.nextHandle],
    nextHandle := s.nextHandle + 1 }
  match config.pattern with
  | some _ => { s1 with patternTimerArmed := true, patternIndex := 0 }
  | none => s1

/-- `stopAlarmSound` (App.tsx lines 821-831): cancels the pattern timer and
stops and unloads the sound referenced by `soundRef`, if any. -/
def stopAlarmSound (s : AppState) : AppState :=
  let s1 := { s with patternTimerArmed := false }
  match s1.soundRef with
  | some h => { s1 with playingHandles := s1.playingHandles.erase h, soundRef := none }
  | none => s1

/-- `startBreathingExercise` entry (App.tsx lines 664-694): resets the phase
to inhale and the cycle count to 0 and arms the phase timer; the timeout
chain itself is driven by wall-clock timers outside these claims. -/
def startBreathingExercise (s : AppState) : AppState :=
  { s with breathingPhase := .inhale, breathingCycle := 0, breathingTimerArmed := true }

/-- One tuple of `Math.random()` draws consumed by a single `triggerAlarm`
call: math-problem operator and operands, and the affirmation index. -/
structure Draws where
  rop : ℚ
  ra : ℚ
  rb : ℚ
  raff : ℚ

/-- `triggerAlarm` (App.tsx lines 736-751): snapshots the alarm as active,
generates a fresh math problem and target affirmation, clears the input and
flag state, shows the alert screen, starts the breathing sequencer for
breathing alarms, and starts the alarm sound. -/
def triggerAlarm (d : Draws) (alarm : Alarm) (s : AppState) : AppState :=
  let s1 := { s with
    activeAlarm := some alarm,
    mathProblem := generateMathProblem d.rop d.ra d.rb,
    userAnswer := "",
    affirmationText := "",
    targetAffirmation := AFFIRMATIONS.getD (Int.floor (d.raff * 4)).toNat "undefined",
    wrongAnswer := false,
    shakeCount := 0,
    alarmScreenVisible := true }
  let s2 := if alarm.dismissType = .breathing then startBreathingExercise s1 else s1
  playAlarmSound alarm.wakeIntensity alarm.sound s2

/-- The `timeKey` string built from the current hour and minute. -/
def timeKeyOf (now : Nat) : String :=
  toString (dateHours now) ++ ":" ++ toString (dateMinutes now)

/-- The dedup key `alarm.id ++ "-" ++ timeKey` recorded in `lastTriggeredRef`. -/
def alarmKeyOf (alarm : Alarm) (now : Nat) : String :=
  alarm.id ++ "-" ++ timeKeyOf now

/-- One iteration of the `alarms.forEach` body of the trigger effect. -/
def tickStep (d : Nat → Draws) (now : Nat) (st : AppState) (alarm : Alarm) : AppState :=
  if alarm.enabled = false then st
  else if alarm.hour ≠ dateHours now then st
  else if alarm.minute ≠ dateMinutes now then st
  else if (alarm.days.all (fun x => !x) || alarm.days.getD (weekdayOf now) false) = false then st
  else if st.lastTriggered = alarmKeyOf alarm now then st
  else
    let st1 := { st with
      lastTriggered := alarmKeyOf alarm now,
      triggerLog := st.triggerLog ++ [(alarm.id, dateHours now, dateMinutes now)] }
    triggerAlarm (d st.triggerLog.length) alarm st1

/-- The alarm-trigger `useEffect` (App.tsx lines 572-594): for each alarm in
list order, skip it unless it is enabled, its time equals the current hour
and minute, and its day rule matches (all-false one-shot or today's bit);
then compare the dedup key with the single `lastTriggeredRef` slot, and on a
miss record the key and invoke `triggerAlarm`. `d` supplies the random draws
for the `k`-th invocation of this tick sequence, and `now` is the current
instant in epoch milliseconds. -/
def tick (d : Nat → Draws) (now : Nat) (s : AppState) : AppState :=
  s.alarms.foldl (tickStep d now) s

/-- The one-shot-disable snippet repeated in every dismissal handler:
`if (activeAlarm && activeAlarm.days.every((d) => !d)) setAlarms(alarms.map(...))`. -/
def disableOneShot (active : Option Alarm) (alarms : List Alarm) : List Alarm :=
  match active with
  | some a =>
    if a.days.all (fun x => !x) then
      alarms.map (fun al => if al.id = a.id then { al with enabled := false } else al)
    else alarms
  | none => alarms

/-- `handleSimpleDismiss` (App.tsx lines 645-662). -/
def handleSimpleDismiss (now : Nat) (s : AppState) : AppState :=
  let s1 := stopAlarmSound s
  { s1 with
    alarmScreenVisible := false,
    pendingWakeTime := some now,
    bedtimeHour := 22,
    bedtimeMinute := 0,
    bedtimeModalVisible := true,
    alarms := disableOneShot s1.activeAlarm s1.alarms,
    activeAlarm := none }

/-- `handleShakeDismiss` (App.tsx lines 625-643). -/
def handleShakeDismiss (now : Nat) (s : AppState) : AppState :=
  let s1 := stopAlarmSound s
  { s1 with
    alarmScreenVisible := false,
    shakeCount := 0,
    pendingWakeTime := some now,
    bedtimeHour := 22,
    bedtimeMinute := 0,
    bedtimeModalVisible := true,
    alarms := disableOneShot s1.activeAlarm s1.alarms,
    activeAlarm := none }

/-- `handleBreathingDismiss` (App.tsx lines 696-713). -/
def handleBreathingDismiss (now : Nat) (s : AppState) : AppState :=
  let s0 := { s with breathingTimerArmed := false }
  let s1 := stopAlarmSound s0
  { s1 with
    alarmScreenVisible := false,
    pendingWakeTime := some now,
    bedtimeHour := 22,
    bedtimeMinute := 0,
    bedtimeModalVisible := true,
    alarms := disableOneShot s1.activeAlarm s1.alarms,
    activeAlarm := none }

/-- `handleAffirmationDismiss` (App.tsx lines 715-734): the typed text must
equal the target phrase case-insensitively after trimming the input. -/
def handleAffirmationDismiss (now : Nat) (s : AppState) : AppState :=
  if s.affirmationText.toLower.trim = s.targetAffirmation.toLower then
    let s1 := stopAlarmSound s
    { s1 with
      alarmScreenVisible := false,
      affirmationText := "",
      pendingWakeTime := some now,
      bedtimeHour := 22,
      bedtimeMinute := 0,
      bedtimeModalVisible := true,
      alarms := disableOneShot s1.activeAlarm s1.alarms,
      activeAlarm := none }
  else
    { s with wrongAnswer := true }

/-- JavaScript `parseInt(s, 10)`: skip leading whitespace, read an optional
sign, then the longest prefix of decimal digits; `NaN` (here `none`) when
that prefix is empty, otherwise the signed value of the digits with any
trailing characters ignored. -/
def jsParseInt (s : String) : Option ℤ :=
  let cs := s.data.dropWhile Char.isWhitespace
  let signAndRest : Bool × List Char :=
    match cs with
    | '-' :: r => (true, r)
    | '+' :: r => (false, r)
    | _ => (false, cs)
  let ds := signAndRest.2.takeWhile Char.isDigit
  if ds.isEmpty then none
  else
    let n : Nat := ds.foldl (fun acc c => acc * 10 + (c.toNat - 48)) 0
    some (if signAndRest.1 then -(n : ℤ) else (n : ℤ))

/-- `handleDismissAlarm` — the math-mission handler (App.tsx lines 873-899):
`parseInt(userAnswer, 10)` must equal the stored answer (a `NaN` comparison
is always false); on failure only the wrong-flag is raised and the input
cleared, and the problem is left as it is. -/
def handleDismissAlarm (now : Nat) (s : AppState) : AppState :=
  if jsParseInt s.userAnswer = some s.mathProblem.answer then
    let s1 := stopAlarmSound s
    { s1 with
      alarmScreenVisible := false,
      userAnswer := "",
      pendingWakeTime := some now,
      bedtimeHour := 22,
      bedtimeMinute := 0,
      bedtimeModalVisible := true,
      alarms := disableOneShot s1.activeAlarm s1.alarms,
      activeAlarm := none }
  else
    { s with wrongAnswer := true, userAnswer := "" }

/-- `handleSnoozeAlarm` (App.tsx lines 901-919): a no-op without an active
alarm or with snooze 0; otherwise cancels the breathing timer, stops the
sound, hides the alert screen, schedules a re-trigger of the alarm snapshot
after `snooze` minutes, and clears the active alarm. -/
def handleSnoozeAlarm (s : AppState) : AppState :=
  match s.activeAlarm with
  | none => s
  | some a =>
    if a.snooze = 0 then s
    else
      let s0 := { s with breathingTimerArmed := false }
      let s1 := stopAlarmSound s0
      { s1 with
        alarmScreenVisible := false,
        snoozePending := some (a, a.snooze * 60 * 1000),
        activeAlarm := none }

/-!
## Next-alarm countdown (`getNextAlarmCountdown`, App.tsx lines 940-980)
-/

/-- The instant the source builds with `candidate = new Date(now);
candidate.setDate(now.getDate() + i); candidate.setHours(h, m, 0, 0)`. -/
def dateAt (now i h m : Nat) : Nat :=
  (epochDay now + i) * msPerDay + h * msPerHour + m * msPerMinute

/-- The body of the repeating-alarm loop at offset `i`: the candidate's
difference from `now` when the weekday bit is set and the candidate is
strictly after `now`, otherwise nothing (a set bit with a past candidate
does not stop the scan — the source only breaks on a future candidate). -/
def scanOffset (now : Nat) (alarm : Alarm) (i : Nat) : Option Nat :=
  if alarm.days.getD ((weekdayOf now + i) % 7) false then
    let candidate := dateAt now i alarm.hour alarm.minute
    if now < candidate then some (candidate - now) else none
  else none

/-- The per-alarm part of `getNextAlarmCountdown`: for repeating alarms the
`i = 0..6` scan taking the first offset whose weekday bit is set and whose
candidate is strictly after `now`; for one-shot alarms today's instant,
pushed to tomorrow when it is not strictly in the future. `none` means the
alarm contributed no candidate (the source leaves `minDiff` untouched). -/
def alarmDiff (now : Nat) (alarm : Alarm) : Option Nat :=
  if alarm.days.any (fun x => x) then
    (List.range 7).findSome? (scanOffset now alarm)
  else
    let alarmDate := dateAt now 0 alarm.hour alarm.minute
    let alarmDate2 := if alarmDate ≤ now then alarmDate + msPerDay else alarmDate
    some (alarmDate2 - now)

/-- `getNextAlarmCountdown`: `null` without enabled alarms or when `minDiff`
stays `Infinity`; otherwise the minimum difference in milliseconds split as
`(hours, minutes)` via `totalMinutes = floor(minDiff / 60000)`. -/
def getNextAlarmCountdown (now : Nat) (alarms : List Alarm) : Option (Nat × Nat) :=
  let enabledAlarms := alarms.filter (fun a => a.enabled)
  if enabledAlarms.isEmpty then none
  else
    let minDiff := enabledAlarms.foldl (fun acc a =>
      match alarmDiff now a with
      | none => acc
      | some dd =>
        match acc with
        | none => some dd
        | some m => if dd < m then some dd else some m) none
    match minDiff with
    | none => none
    | some dd =>
      let totalMinutes := dd / msPerMinute
      some (totalMinutes / 60, totalMinutes % 60)

/-!
## Native alarm scheduling (`getNextTriggerTimestamp`, App.tsx lines 3235-3280)

The `nativeAlarm` service module appended to `App.tsx` implements the
recurrence resolver's `nextOccurrence`: given an alarm, it returns the next
trigger instant or `null`. The source reads the clock itself
(`const now = new Date()`); the embedding takes `now` as an explicit
parameter.
-/

/-- The body of the first repeating-alarm loop of `getNextTriggerTimestamp`
at offset `i`: the candidate instant itself when the weekday bit is set and
the candidate is strictly after `now`; a set bit with a past candidate does
not stop the scan (the source only returns on a future candidate). -/
def scanOffsetInstant (now : Nat) (alarm : Alarm) (i : Nat) : Option Nat :=
  if alarm.days.getD ((weekdayOf now + i) % 7) false then
    let candidate := dateAt now i alarm.hour alarm.minute
    if now < candidate then some candidate else none
  else none

/-- The body of the second (wrap) loop of `getNextTriggerTimestamp` at
offset `i`: when the weekday bit is set, the candidate one week beyond the
offset (`alarmToday + offset + 7` days), returned unconditionally. -/
def wrapOffsetInstant (now : Nat) (alarm : Alarm) (i : Nat) : Option Nat :=
  if alarm.days.getD ((weekdayOf now + i) % 7) false then
    some (dateAt now (i + 7) alarm.hour alarm.minute)
  else none

/-- `getNextTriggerTimestamp` (App.tsx lines 3235-3280): `null` for a
disabled alarm; for a one-shot alarm today's instant, or tomorrow's when
today's is not strictly in the future; for a repeating alarm the first
offset 0..6 whose weekday bit is set and whose candidate is strictly after
`now`, and — when no offset in that 7-day window qualifies — the first
enabled offset one week later (the trailing `return null` is unreachable
for a repeating alarm with 7 day bits). -/
def getNextTriggerTimestamp (now : Nat) (alarm : Alarm) : Option Nat :=
  if alarm.enabled = false then none
  else if alarm.days.all (fun x => !x) then
    let alarmToday := dateAt now 0 alarm.hour alarm.minute
    if now < alarmToday then some alarmToday
    else some (alarmToday + msPerDay)
  else
    match (List.range 7).findSome? (scanOffsetInstant now alarm) with
    | some t => some t
    | none => (List.range 7).findSome? (wrapOffsetInstant now alarm)

/-!
## Sleep analytics (`getSleepStats`, `getOptimalWakeTime`)
-/

/-- `formatSettingsTime` (App.tsx lines 1104-1108): 12-hour clock string
with a two-digit, zero-padded minute. -/
def formatSettingsTime (hour minute : Nat) : String :=
  let displayHour := if hour % 12 = 0 then 12 else hour % 12
  let ampm := if 12 ≤ hour then "PM" else "AM"
  let minuteStr := toString minute
  let minutePadded := if minuteStr.length < 2 then "0" ++ minuteStr else minuteStr
  toString displayHour ++ ":" ++ minutePadded ++ " " ++ ampm

/-- A bedtime in minutes of day, normalized so instants before noon count as
after midnight: `mins < 720` gets `+1440` (App.tsx lines 1162-1167 and
1252-1257 use this same computation). -/
def normalizedBedtimeMinutes (e : SleepEntry) : Nat :=
  let mins := dateHours e.bedtime * 60 + dateMinutes e.bedtime
  if mins < 720 then mins + 1440 else mins

/-- The `avgBedtimeMinutes` value computed inside `getSleepStats`:
`Math.round(mean(normalized minutes)) % 1440`. -/
def avgBedtimeMinutesOf (l : List SleepEntry) : ℤ :=
  jsRound (((l.map normalizedBedtimeMinutes).sum : ℚ) / (l.length : ℚ)) % 1440

/-- The aggregate record `getSleepStats` returns; `best`/`worst` keep the
duration and the `wakeTime` timestamp the source wraps in a `Date`. -/
structure SleepStats where
  average : ℤ
  bestDuration : Nat
  bestWakeTime : Nat
  worstDuration : Nat
  worstWakeTime : Nat
  totalNights : Nat
  avgBedtime : String
  avgWakeTime : String
  deriving DecidableEq, Repr

/-- `getSleepStats` (App.tsx lines 1145-1199): `null` on an empty history;
otherwise rounded mean duration, best/worst by `reduce` (strict comparison,
ties keep the earlier entry), the midnight-aware average bedtime, and the
plain average wake time, both formatted. -/
def getSleepStats (sleepData : List SleepEntry) : Option SleepStats :=
  match sleepData with
  | [] => none
  | e0 :: rest =>
    let durations := (e0 :: rest).map (fun e => e.sleepDuration)
    let average := jsRound ((durations.sum : ℚ) / (durations.length : ℚ))
    let best := rest.foldl (fun mx e => if mx.sleepDuration < e.sleepDuration then e else mx) e0
    let worst := rest.foldl (fun mn e => if e.sleepDuration < mn.sleepDuration then e else mn) e0
    let avgBedtimeMinutes := avgBedtimeMinutesOf (e0 :: rest)
    let wakeMinutes := (e0 :: rest).map (fun e => dateHours e.wakeTime * 60 + dateMinutes e.wakeTime)
    let avgWakeMinutes := jsRound ((wakeMinutes.sum : ℚ) / (wakeMinutes.length : ℚ))
    some { average := average,
           bestDuration := best.sleepDuration,
           bestWakeTime := best.wakeTime,
           worstDuration := worst.sleepDuration,
           worstWakeTime := worst.wakeTime,
           totalNights := (e0 :: rest).length,
           avgBedtime := formatSettingsTime (avgBedtimeMinutes / 60).toNat (avgBedtimeMinutes % 60).toNat,
           avgWakeTime := formatSettingsTime (avgWakeMinutes / 60).toNat (avgWakeMinutes % 60).toNat }

/-- The record `getOptimalWakeTime` returns. -/
structure OptimalWake where
  hour : Nat
  minute : Nat
  avgSleep : ℤ
  deriving DecidableEq, Repr

/-- `getOptimalWakeTime` (App.tsx lines 1239-1274): hard `null` below 7
entries; otherwise the last 7 entries give the rounded mean duration and the
midnight-aware average bedtime, the suggested wake clock time is
`(avgBedtime + 480) % 1440` with its minute component rounded to the nearest
multiple of 5. -/
def getOptimalWakeTime (sleepData : List SleepEntry) : Option OptimalWake :=
  if sleepData.length < 7 then none
  else
    let recentData := sleepData.drop (sleepData.length - 7)
    let avgSleepDuration :=
      jsRound (((recentData.map (fun e => e.sleepDuration)).sum : ℚ) / (recentData.length : ℚ))
    let avgBedtimeMinutes :=
      jsRound (((recentData.map normalizedBedtimeMinutes).sum : ℚ) / (recentData.length : ℚ))
    let optimalWakeMinutes := (avgBedtimeMinutes + 480) % 1440
    some { hour := (optimalWakeMinutes / 60).toNat,
           minute := (jsRound (((optimalWakeMinutes % 60 : ℤ) : ℚ) / 5) * 5).toNat,
           avgSleep := avgSleepDuration }

/-!
## Spec-side definitions

The following definitions are written from the specification's words rather
than from the code; the refinement theorems below compare them against the
embedded code.
-/

/-- Modelled from the spec: bedtime minutes normalized so pre-noon clock
values are treated as after midnight (`+1440`). The code tests
`mins < 720` instead of comparing the hour with noon. -/
def preNoonNormalizedMinutes (e : SleepEntry) : Nat :=
  let h := dateHours e.bedtime
  let m := dateMinutes e.bedtime
  if h < 12 then h * 60 + m + 1440 else h * 60 + m

/-- Modelled from the spec: the optimal-wake suggestion. Requires at least 7
entries and uses only the most recent 7 (here: the last 7 of the
insertion-ordered history, written as reverse-take-reverse); averages the
midnight-aware bedtime minutes with rounding, suggests
`(avgBedtime + 480) mod 1440`, and rounds the minute component to the
nearest multiple of 5. -/
def optimalWakeSpec (sleepData : List SleepEntry) : Option OptimalWake :=
  if 7 ≤ sleepData.length then
    let recent := (sleepData.reverse.take 7).reverse
    let avgBed : ℤ := round (((recent.map preNoonNormalizedMinutes).sum : ℚ) / 7)
    let wake : ℤ := (avgBed + 480) % 1440
    some { hour := (wake / 60).toNat,
           minute := (5 * round (((wake % 60 : ℤ) : ℚ) / 5)).toNat,
           avgSleep := round (((recent.map (fun e => e.sleepDuration)).sum : ℚ) / 7) }
  else none

/-- Offset `i` days from `now` is an eligible occurrence of a repeating
alarm: the weekday bit is set and the candidate instant is strictly after
`now`. -/
def candidateOK (now : Nat) (a : Alarm) (i : Nat) : Prop :=
  a.days.getD ((weekdayOf now + i) % 7) false = true ∧
    now < dateAt now i a.hour a.minute

instance (now : Nat) (a : Alarm) (i : Nat) : Decidable (candidateOK now a i) := by
  unfold candidateOK; infer_instance

/-!
## Concrete fixtures used by witnesses and counterexamples
-/

/-- A base application state with no session active and empty histories. -/
def mkState (alarms : List Alarm) : AppState :=
  { alarms := alarms
    alarmScreenVisible := false
    activeAlarm := none
    mathProblem := { opSymbol := "+", a := 1, b := 1, answer := 2 }
    userAnswer := ""
    wrongAnswer := false
    affirmationText := ""
    targetAffirmation := ""
    breathingPhase := .inhale
    breathingCycle := 0
    breathingTimerArmed := false
    shakeCount := 0
    lastTriggered := ""
    soundRef := none
    playingHandles := []
    nextHandle := 0
    patternTimerArmed := false
    patternIndex := 0
    pendingWakeTime := none
    bedtimeModalVisible := false
    bedtimeHour := 22
    bedtimeMinute := 0
    sleepData := []
    snoozePending := none
    triggerLog := [] }

/-- A one-shot alarm (all weekday bits false) at 07:00. -/
def oneShotAt7 (i : String) : Alarm :=
  { id := i, hour := 7, minute := 0
    days := [false, false, false, false, false, false, false]
    enabled := true, label := "", snooze := 10
    wakeIntensity := .energetic, sound := .sunrise, dismissType := .simple }

/-- A repeating alarm at 07:00 enabled only on weekday 0. -/
def sundayAt7 : Alarm :=
  { oneShotAt7 "sun" with days := [true, false, false, false, false, false, false] }

/-- A repeating alarm at 07:00 enabled only on weekday 1. -/
def mondayAt7 : Alarm :=
  { oneShotAt7 "mon" with days := [false, true, false, false, false, false, false] }

/-- A fixed random-draw stream (every draw 0). -/
def zeroDraws : Nat → Draws := fun _ => { rop := 0, ra := 0, rb := 0, raff := 0 }

/-- 07:00:00 of epoch day 0 in milliseconds. -/
def sevenAM : Nat := 7 * msPerHour

/-- 08:00:00 of epoch day 0 in milliseconds. -/
def eightAM : Nat := 8 * msPerHour

/-- State with two enabled one-shot alarms both due at 07:00. -/
def twoAlarmState : AppState := mkState [oneShotAt7 "a", oneShotAt7 "b"]

/-- A sleep entry: bedtime day 0 at 23:30, wake day 1 at 07:00. -/
def entry2330 : SleepEntry :=
  { id := "1", bedtime := 84600000, wakeTime := 111600000, sleepDuration := 450 }

/-- A sleep entry: bedtime day 1 at 00:15, wake day 1 at 07:15. -/
def entry0015 : SleepEntry :=
  { id := "2", bedtime := 87300000, wakeTime := 112500000, sleepDuration := 420 }

/-- A sleep entry with bedtime at 22:30 of epoch day `i` and wake at 06:30 of
the following day (480 minutes of sleep). -/
def nightEntry (i : Nat) : SleepEntry :=
  { id := toString i
    bedtime := i * msPerDay + 22 * msPerHour + 30 * msPerMinute
    wakeTime := (i + 1) * msPerDay + 6 * msPerHour + 30 * msPerMinute
    sleepDuration := 480 }

/-- Seven consecutive recorded nights. -/
def sevenNights : List SleepEntry := (List.range 7).map nightEntry

/-- Six consecutive recorded nights. -/
def sixNights : List SleepEntry := (List.range 6).map nightEntry

/-- A state in the math mission with problem `42 - 17` and the correct
answer `"25"` typed, mirroring the spec's regression scenario. -/
def mathStateRight : AppState :=
  { mkState [oneShotAt7 "a"] with
    alarmScreenVisible := true
    activeAlarm := some (oneShotAt7 "a")
    mathProblem := { opSymbol := "-", a := 42, b := 17, answer := 25 }
    userAnswer := "25" }

/-- The same math-mission state with the non-integer input `"abc"` typed. -/
def mathStateWrong : AppState :=
  { mathStateRight with userAnswer := "abc" }

/-!
## Shared helper lemmas
-/

theorem stopAlarmSound_alarms (s : AppState) : (stopAlarmSound s).alarms = s.alarms := by
  unfold stopAlarmSound
  cases s.soundRef <;> simp

theorem stopAlarmSound_activeAlarm (s : AppState) :
    (stopAlarmSound s).activeAlarm = s.activeAlarm := by
  unfold stopAlarmSound
  cases s.soundRef <;> simp

theorem stopAlarmSound_soundRef (s : AppState) : (stopAlarmSound s).soundRef = none := by
  unfold stopAlarmSound
  cases s.soundRef <;> simp

theorem avgBedtime_concrete :
    avgBedtimeMinutesOf [entry2330, entry0015] = 1433 := by
  have hm : [entry2330, entry0015].map normalizedBedtimeMinutes = [1410, 1455] := by
    decide
  unfold avgBedtimeMinutesOf
  rw [hm]
  norm_num [jsRound]

theorem normalized_eq_preNoon (e : SleepEntry) :
    normalizedBedtimeMinutes e = preNoonNormalizedMinutes e := by
  have hm : dateMinutes e.bedtime < 60 := Nat.mod_lt _ (by norm_num)
  simp only [normalizedBedtimeMinutes, preNoonNormalizedMinutes]
  split <;> split <;> omega

theorem triggerAlarm_triggerLog (d : Draws) (a : Alarm) (s : AppState) :
    (triggerAlarm d a s).triggerLog = s.triggerLog := by
  unfold triggerAlarm playAlarmSound startBreathingExercise
  by_cases h : a.dismissType = .breathing <;>
    cases h2 : (soundConfig a.sound).pattern <;> simp [h, h2]

theorem triggerAlarm_lastTriggered (d : Draws) (a : Alarm) (s : AppState) :
    (triggerAlarm d a s).lastTriggered = s.lastTriggered := by
  unfold triggerAlarm playAlarmSound startBreathingExercise
  by_cases h : a.dismissType = .breathing <;>
    cases h2 : (soundConfig a.sound).pattern <;> simp [h, h2]

theorem triggerAlarm_alarms (d : Draws) (a : Alarm) (s : AppState) :
    (triggerAlarm d a s).alarms = s.alarms := by
  unfold triggerAlarm playAlarmSound startBreathingExercise
  by_cases h : a.dismissType = .breathing <;>
    cases h2 : (soundConfig a.sound).pattern <;> simp [h, h2]

theorem triggerAlarm_activeAlarm (d : Draws) (a : Alarm) (s : AppState) :
    (triggerAlarm d a s).activeAlarm = some a := by
  unfold triggerAlarm playAlarmSound startBreathingExercise
  by_cases h : a.dismissType = .breathing <;>
    cases h2 : (soundConfig a.sound).pattern <;> simp [h, h2]

theorem triggerAlarm_alarmScreenVisible (d : Draws) (a : Alarm) (s : AppState) :
    (triggerAlarm d a s).alarmScreenVisible = true := by
  unfold triggerAlarm playAlarmSound startBreathingExercise
  by_cases h : a.dismissType = .breathing <;>
    cases h2 : (soundConfig a.sound).pattern <;> simp [h, h2]

theorem triggerAlarm_playingHandles (d : Draws) (a : Alarm) (s : AppState) :
    (triggerAlarm d a s).playingHandles = s.playingHandles ++ [s.nextHandle] := by
  unfold triggerAlarm playAlarmSound startBreathingExercise
  by_cases h : a.dismissType = .breathing <;>
    cases h2 : (soundConfig a.sound).pattern <;> simp [h, h2]

theorem triggerAlarm_nextHandle (d : Draws) (a : Alarm) (s : AppState) :
    (triggerAlarm d a s).nextHandle = s.nextHandle + 1 := by
  unfold triggerAlarm playAlarmSound startBreathingExercise
  by_cases h : a.dismissType = .breathing <;>
    cases h2 : (soundConfig a.sound).pattern <;> simp [h, h2]

theorem triggerAlarm_soundRef (d : Draws) (a : Alarm) (s : AppState) :
    (triggerAlarm d a s).soundRef = some s.nextHandle := by
  unfold triggerAlarm playAlarmSound startBreathingExercise
  by_cases h : a.dismissType = .breathing <;>
    cases h2 : (soundConfig a.sound).pattern <;> simp [h, h2]

theorem tickStep_fires (d : Nat → Draws) (now : Nat) (st : AppState) (alarm : Alarm)
    (h1 : alarm.enabled = true)
    (h2 : alarm.hour = dateHours now)
    (h3 : alarm.minute = dateMinutes now)
    (h4 : (alarm.days.all (fun x => !x) || alarm.days.getD (weekdayOf now) false) = true)
    (h5 : st.lastTriggered ≠ alarmKeyOf alarm now) :
    tickStep d now st alarm =
      triggerAlarm (d st.triggerLog.length) alarm
        { st with
          lastTriggered := alarmKeyOf alarm now,
          triggerLog := st.triggerLog ++ [(alarm.id, dateHours now, dateMinutes now)] } := by
  rw [tickStep, if_neg (by simp [h1]), if_neg (by simp [h2]), if_neg (by simp [h3]),
    if_neg (by rw [h4]; decide), if_neg h5]

/-- One tick over a state whose alarm list holds exactly two alarms, both
due now and neither blocked by the dedup slot: both fire, in list order. -/
theorem tick_two_due_alarms (d : Nat → Draws) (now : Nat) (s : AppState) (x y : Alarm)
    (halarms : s.alarms = [x, y])
    (hx1 : x.enabled = true) (hy1 : y.enabled = true)
    (hx2 : x.hour = dateHours now) (hy2 : y.hour = dateHours now)
    (hx3 : x.minute = dateMinutes now) (hy3 : y.minute = dateMinutes now)
    (hx4 : (x.days.all (fun b => !b) || x.days.getD (weekdayOf now) false) = true)
    (hy4 : (y.days.all (fun b => !b) || y.days.getD (weekdayOf now) false) = true)
    (hkx : s.lastTriggered ≠ alarmKeyOf x now)
    (hkxy : alarmKeyOf x now ≠ alarmKeyOf y now) :
    (tick d now s).triggerLog =
      s.triggerLog ++ [(x.id, dateHours now, dateMinutes now),
                       (y.id, dateHours now, dateMinutes now)] ∧
    (tick d now s).activeAlarm = some y ∧
    (tick d now s).playingHandles = s.playingHandles ++ [s.nextHandle, s.nextHandle + 1] ∧
    (tick d now s).nextHandle = s.nextHandle + 2 ∧
    (tick d now s).alarmScreenVisible = true ∧
    (tick d now s).alarms = s.alarms ∧
    (tick d now s).lastTriggered = alarmKeyOf y now := by
  have e1 : tick d now s = tickStep d now (tickStep d now s x) y := by
    rw [tick, halarms]
    rfl
  have hs1 : tickStep d now s x =
      triggerAlarm (d s.triggerLog.length) x
        { s with
          lastTriggered := alarmKeyOf x now,
          triggerLog := s.triggerLog ++ [(x.id, dateHours now, dateMinutes now)] } :=
    tickStep_fires d now s x hx1 hx2 hx3 hx4 hkx
  have p1log : (tickStep d now s x).triggerLog =
      s.triggerLog ++ [(x.id, dateHours now, dateMinutes now)] := by
    rw [hs1, triggerAlarm_triggerLog]
  have p1last : (tickStep d now s x).lastTriggered = alarmKeyOf x now := by
    rw [hs1, triggerAlarm_lastTriggered]
  have p1play : (tickStep d now s x).playingHandles =
      s.playingHandles ++ [s.nextHandle] := by
    rw [hs1, triggerAlarm_playingHandles]
  have p1next : (tickStep d now s x).nextHandle = s.nextHandle + 1 := by
    rw [hs1, triggerAlarm_nextHandle]
  have p1alarms : (tickStep d now s x).alarms = s.alarms := by
    rw [hs1, triggerAlarm_alarms]
  have hky : (tickStep d now s x).lastTriggered ≠ alarmKeyOf y now := by
    rw [p1last]
    exact hkxy
  have hs2 : tickStep d now (tickStep d now s x) y =
      triggerAlarm (d (tickStep d now s x).triggerLog.length) y
        { tickStep d now s x with
          lastTriggered := alarmKeyOf y now,
          triggerLog := (tickStep d now s x).triggerLog ++
            [(y.id, dateHours now, dateMinutes now)] } :=
    tickStep_fires d now (tickStep d now s x) y hy1 hy2 hy3 hy4 hky
  refine ⟨?_, ?_, ?_, ?_, ?_, ?_, ?_⟩
  · rw [e1, hs2, triggerAlarm_triggerLog]
    simp [p1log]
  · rw [e1, hs2, triggerAlarm_activeAlarm]
  · rw [e1, hs2, triggerAlarm_playingHandles]
    simp [p1play, p1next]
  · rw [e1, hs2, triggerAlarm_nextHandle]
    simp [p1next]
  · rw [e1, hs2, triggerAlarm_alarmScreenVisible]
  · rw [e1, hs2, triggerAlarm_alarms]
    simp [p1alarms]
  · rw [e1, hs2, triggerAlarm_lastTriggered]

theorem scanOffsetInstant_none (now : Nat) (a : Alarm) (i : Nat)
    (h : ¬candidateOK now a i) : scanOffsetInstant now a i = none := by
  unfold scanOffsetInstant
  by_cases hb : a.days.getD ((weekdayOf now + i) % 7) false = true
  · by_cases hc : now < dateAt now i a.hour a.minute
    · exact absurd ⟨hb, hc⟩ h
    · rw [if_pos hb, if_neg hc]
  · rw [if_neg hb]

theorem scanOffsetInstant_some (now : Nat) (a : Alarm) (i : Nat)
    (h : candidateOK now a i) :
    scanOffsetInstant now a i = some (dateAt now i a.hour a.minute) := by
  unfold scanOffsetInstant
  rw [if_pos h.1, if_pos h.2]

theorem future_candidate (now h m i : Nat) (hi : 1 ≤ i) : now < dateAt now i h m := by
  have hmod := Nat.div_add_mod now msPerDay
  have hlt : now % msPerDay < msPerDay := Nat.mod_lt _ (by norm_num [msPerDay])
  simp only [dateAt, epochDay, msPerDay, msPerHour, msPerMinute] at *
  omega

theorem all_not_eq_false_of_any (l : List Bool) (h : l.any (fun b => b) = true) :
    l.all (fun x => !x) = false := by
  cases hall : l.all (fun x => !x)
  · rfl
  · exfalso
    rcases List.any_eq_true.mp h with ⟨x, hxmem, hxtrue⟩
    have hx := List.all_eq_true.mp hall x hxmem
    rw [hxtrue] at hx
    exact absurd hx (by decide)

theorem patternRun_patternIndex (p : List Nat) (v : ℚ) (n : Nat) :
    (patternRun p v n).patternIndex = n := by
  induction n with
  | zero => rfl
  | succ n ih => simp [patternRun, patternStep, ih]

theorem patternRun_isPlaying (p : List Nat) (v : ℚ) (n : Nat) :
    (patternRun p v n).isPlaying = true ↔ n % 2 = 0 := by
  induction n with
  | zero => simp [patternRun, patternStart]
  | succ n ih =>
    show (!(patternRun p v n).isPlaying) = true ↔ (n + 1) % 2 = 0
    cases hb : (patternRun p v n).isPlaying <;> rw [hb] at ih <;> simp_all <;> omega

/-!
## Claim theorems
-/

/-- C10. The aggregate sleep statistics function returns `none` exactly when
the sleep-entry history is empty; every non-empty history yields a fully
defined record. -/
theorem sleepStats_defined_iff_nonempty :
    ∀ l : List SleepEntry, (getSleepStats l).isSome ↔ l ≠ [] := by
  intro l
  cases l <;> simp [getSleepStats]

/-- C5, counterexample. The claim bounds the subtraction minuend by 59, but
the source draws `Math.floor(Math.random() * 50) + 30`, whose range is
`[30, 79]`: the draws `rop = 1/2` (operator index 1, subtraction) and
`ra = 99/100` produce the minuend 79. -/
theorem mathProblem_minuend_can_exceed_59 :
    (generateMathProblem (1/2) (99/100) 0).opSymbol = "-" ∧
    (generateMathProblem (1/2) (99/100) 0).a = 79 ∧
    ¬ (generateMathProblem (1/2) (99/100) 0).a ≤ 59 ∧
    0 ≤ (1/2 : ℚ) ∧ (1/2 : ℚ) < 1 ∧ 0 ≤ (99/100 : ℚ) ∧ (99/100 : ℚ) < 1 := by
  have h1 : ⌊(1/2 : ℚ) * 3⌋ = 1 := by norm_num
  have h2 : ⌊(99/100 : ℚ) * 50⌋ = 49 := by norm_num
  have hp : generateMathProblem (1/2) (99/100) 0 =
      { opSymbol := "-", a := 79, b := ⌊(0 : ℚ) * 30⌋ + 1,
        answer := 79 - (⌊(0 : ℚ) * 30⌋ + 1) } := by
    norm_num [generateMathProblem]
    decide
  rw [hp]
  norm_num

/-- C5, amended. For random draws in `[0,1)` the operator is selected from
`{+, -, *}` by `Math.floor(rop * 3)`, each operator on a preimage interval of
length 1/3 (the uniform split); in the subtraction branch the minuend lies in
`[30, 79]` and the subtrahend in `[1, 30]`, so the answer is never negative;
in the multiplication branch both operands lie in `[2, 13]`. -/
theorem mathProblem_operator_and_ranges (rop ra rb : ℚ)
    (hop0 : 0 ≤ rop) (hop1 : rop < 1) (ha0 : 0 ≤ ra) (ha1 : ra < 1)
    (hb0 : 0 ≤ rb) (hb1 : rb < 1) :
    ((generateMathProblem rop ra rb).opSymbol = "+" ∨
     (generateMathProblem rop ra rb).opSymbol = "-" ∨
     (generateMathProblem rop ra rb).opSymbol = "*") ∧
    ((generateMathProblem rop ra rb).opSymbol = "+" ↔ rop < 1/3) ∧
    ((generateMathProblem rop ra rb).opSymbol = "-" ↔ (1/3 : ℚ) ≤ rop ∧ rop < 2/3) ∧
    ((generateMathProblem rop ra rb).opSymbol = "*" ↔ (2/3 : ℚ) ≤ rop) ∧
    ((generateMathProblem rop ra rb).opSymbol = "-" →
      30 ≤ (generateMathProblem rop ra rb).a ∧ (generateMathProblem rop ra rb).a ≤ 79 ∧
      1 ≤ (generateMathProblem rop ra rb).b ∧ (generateMathProblem rop ra rb).b ≤ 30 ∧
      (generateMathProblem rop ra rb).answer =
        (generateMathProblem rop ra rb).a - (generateMathProblem rop ra rb).b ∧
      0 ≤ (generateMathProblem rop ra rb).answer) ∧
    ((generateMathProblem rop ra rb).opSymbol = "*" →
      2 ≤ (generateMathProblem rop ra rb).a ∧ (generateMathProblem rop ra rb).a ≤ 13 ∧
      2 ≤ (generateMathProblem rop ra rb).b ∧ (generateMathProblem rop ra rb).b ≤ 13 ∧
      (generateMathProblem rop ra rb).answer =
        (generateMathProblem rop ra rb).a * (generateMathProblem rop ra rb).b) := by
  have h0 : (0 : ℤ) ≤ ⌊rop * 3⌋ := Int.floor_nonneg.mpr (by positivity)
  have h3 : ⌊rop * 3⌋ < 3 := Int.floor_lt.mpr (by push_cast; linarith)
  have hfa0 : (0 : ℤ) ≤ ⌊ra * 50⌋ := Int.floor_nonneg.mpr (by positivity)
  have hfa1 : ⌊ra * 50⌋ < 50 := Int.floor_lt.mpr (by push_cast; linarith)
  have hfb0 : (0 : ℤ) ≤ ⌊rb * 30⌋ := Int.floor_nonneg.mpr (by positivity)
  have hfb1 : ⌊rb * 30⌋ < 30 := Int.floor_lt.mpr (by push_cast; linarith)
  have hma0 : (0 : ℤ) ≤ ⌊ra * 12⌋ := Int.floor_nonneg.mpr (by positivity)
  have hma1 : ⌊ra * 12⌋ < 12 := Int.floor_lt.mpr (by push_cast; linarith)
  have hmb0 : (0 : ℤ) ≤ ⌊rb * 12⌋ := Int.floor_nonneg.mpr (by positivity)
  have hmb1 : ⌊rb * 12⌋ < 12 := Int.floor_lt.mpr (by push_cast; linarith)
  interval_cases h : ⌊rop * 3⌋
  · obtain ⟨hl, hr⟩ := Int.floor_eq_iff.mp h
    push_cast at hl hr
    have hp : generateMathProblem rop ra rb =
        { opSymbol := "+", a := ⌊ra * 50⌋ + 10, b := ⌊rb * 50⌋ + 10,
          answer := ⌊ra * 50⌋ + 10 + (⌊rb * 50⌋ + 10) } := by
      simp [generateMathProblem, h]
    rw [hp]
    dsimp only
    refine ⟨Or.inl rfl,
      iff_of_true rfl (by linarith),
      iff_of_false (by decide) (by rintro ⟨hx, _⟩; linarith),
      iff_of_false (by decide) (by intro hx; linarith),
      fun hc => absurd hc (by decide),
      fun hc => absurd hc (by decide)⟩
  · obtain ⟨hl, hr⟩ := Int.floor_eq_iff.mp h
    push_cast at hl hr
    have hp : generateMathProblem rop ra rb =
        { opSymbol := "-", a := ⌊ra * 50⌋ + 30, b := ⌊rb * 30⌋ + 1,
          answer := ⌊ra * 50⌋ + 30 - (⌊rb * 30⌋ + 1) } := by
      simp [generateMathProblem, h]
    rw [hp]
    dsimp only
    refine ⟨Or.inr (Or.inl rfl),
      iff_of_false (by decide) (by intro hx; linarith),
      iff_of_true rfl ⟨by linarith, by linarith⟩,
      iff_of_false (by decide) (by intro hx; linarith),
      fun _ => ⟨by omega, by omega, by omega, by omega, rfl, by omega⟩,
      fun hc => absurd hc (by decide)⟩
  · obtain ⟨hl, hr⟩ := Int.floor_eq_iff.mp h
    push_cast at hl hr
    have hp : generateMathProblem rop ra rb =
        { opSymbol := "*", a := ⌊ra * 12⌋ + 2, b := ⌊rb * 12⌋ + 2,
          answer := (⌊ra * 12⌋ + 2) * (⌊rb * 12⌋ + 2) } := by
      simp [generateMathProblem, h]
    rw [hp]
    dsimp only
    refine ⟨Or.inr (Or.inr rfl),
      iff_of_false (by decide) (by intro hx; linarith),
      iff_of_false (by decide) (by rintro ⟨_, hx⟩; linarith),
      iff_of_true rfl (by linarith),
      fun hc => absurd hc (by decide),
      fun _ => ⟨by omega, by omega, by omega, by omega, rfl⟩⟩

/-- C5, witness for `mathProblem_operator_and_ranges` at the concrete draws
`rop = 1/2, ra = 0, rb = 0` (the subtraction branch, problem `30 - 1`). -/
theorem mathProblem_operator_and_ranges_witness :
    (generateMathProblem (1/2) 0 0).opSymbol = "-" ↔
      (1/3 : ℚ) ≤ 1/2 ∧ (1/2 : ℚ) < 2/3 :=
  (mathProblem_operator_and_ranges (1/2) 0 0 (by norm_num) (by norm_num) (by norm_num)
    (by norm_num) (by norm_num) (by norm_num)).2.2.1

/-- C8, counterexample. For the two entries with bedtimes 23:30 and 00:15
the computed average bedtime is 23:53, not the claimed 23:52: the normalized
minutes are 1410 and 1455, their mean 1432.5 is rounded up to 1433 by
`Math.round`, and 1433 mod 1440 is 23:53. -/
theorem avgBedtime_2330_0015_is_2353_not_2352 :
    dateHours entry2330.bedtime = 23 ∧ dateMinutes entry2330.bedtime = 30 ∧
    dateHours entry0015.bedtime = 0 ∧ dateMinutes entry0015.bedtime = 15 ∧
    avgBedtimeMinutesOf [entry2330, entry0015] = 23 * 60 + 53 ∧
    ¬ avgBedtimeMinutesOf [entry2330, entry0015] = 23 * 60 + 52 := by
  refine ⟨by decide, by decide, by decide, by decide, ?_, ?_⟩
  · rw [avgBedtime_concrete]; decide
  · rw [avgBedtime_concrete]; decide

/-- C8, amended. The aggregate-stats average bedtime adds 1440 to pre-noon
bedtime minute-of-day values, averages with `Math.round`, and reduces modulo
1440; for exactly the two entries with bedtimes 23:30 and 00:15 the computed
average bedtime is 23:53 (formatted `"11:53 PM"`). -/
theorem avgBedtime_midnight_normalization :
    (∀ l : List SleepEntry,
       avgBedtimeMinutesOf l =
         jsRound (((l.map preNoonNormalizedMinutes).sum : ℚ) / (l.length : ℚ)) % 1440) ∧
    avgBedtimeMinutesOf [entry2330, entry0015] = 1433 ∧
    (getSleepStats [entry2330, entry0015]).map (fun st => st.avgBedtime) =
      some "11:53 PM" := by
  refine ⟨fun l => ?_, avgBedtime_concrete, ?_⟩
  · have hfun : normalizedBedtimeMinutes = preNoonNormalizedMinutes :=
      funext normalized_eq_preNoon
    rw [avgBedtimeMinutesOf, hfun]
  · simp only [getSleepStats, Option.map]
    rw [avgBedtime_concrete]
    decide

/-- C6. The math mission resolves exactly on input whose `parseInt` value
equals the stored answer (alert screen hidden, active alarm cleared, sound
stopped, bedtime prompt raised); input that fails to parse as an integer, or
parses to a wrong integer, only raises the transient wrong-flag and clears
the input box — the problem is untouched and the session state otherwise
unchanged, so the mission stays active. -/
theorem mathDismiss_validation (now : Nat) (s : AppState) :
    (jsParseInt s.userAnswer = some s.mathProblem.answer →
      (handleDismissAlarm now s).alarmScreenVisible = false ∧
      (handleDismissAlarm now s).activeAlarm = none ∧
      (handleDismissAlarm now s).soundRef = none ∧
      (handleDismissAlarm now s).bedtimeModalVisible = true) ∧
    (jsParseInt s.userAnswer = none →
      handleDismissAlarm now s = { s with wrongAnswer := true, userAnswer := "" }) ∧
    (∀ n : ℤ, jsParseInt s.userAnswer = some n → n ≠ s.mathProblem.answer →
      handleDismissAlarm now s = { s with wrongAnswer := true, userAnswer := "" }) := by
  refine ⟨fun h => ?_, fun h => ?_, fun n h hne => ?_⟩
  · simp [handleDismissAlarm, h, stopAlarmSound_soundRef]
  · rw [handleDismissAlarm, if_neg (by simp [h])]
  · rw [handleDismissAlarm, if_neg (by simp [h, hne])]

/-- C6, witness for `mathDismiss_validation`: the problem `42 - 17` with
typed answer `"25"` resolves (alert screen hidden), and typed `"abc"` only
sets the wrong-flag and clears the input. -/
theorem mathDismiss_validation_witness :
    (handleDismissAlarm 0 mathStateRight).alarmScreenVisible = false ∧
    handleDismissAlarm 0 mathStateWrong =
      { mathStateWrong with wrongAnswer := true, userAnswer := "" } := by
  constructor
  · exact ((mathDismiss_validation 0 mathStateRight).1 (by decide)).1
  · exact (mathDismiss_validation 0 mathStateWrong).2.1 (by decide)

/-- C4. For an active one-shot alarm (all weekday bits false), every
dismissal-completion path — simple stop, breathing confirm, a matching
affirmation, a correct math answer, and the shake auto-resolve — rewrites
the alarm list exactly once, disabling precisely that alarm and leaving
every other alarm unchanged, while a snooze-defer leaves the alarm list
untouched. -/
theorem oneshot_disable_exactly_on_dismiss (now : Nat) (s : AppState) (a : Alarm)
    (hact : s.activeAlarm = some a) (hdays : a.days.all (fun x => !x) = true) :
    ((handleSimpleDismiss now s).alarms =
      s.alarms.map (fun al => if al.id = a.id then { al with enabled := false } else al)) ∧
    ((handleShakeDismiss now s).alarms =
      s.alarms.map (fun al => if al.id = a.id then { al with enabled := false } else al)) ∧
    ((handleBreathingDismiss now s).alarms =
      s.alarms.map (fun al => if al.id = a.id then { al with enabled := false } else al)) ∧
    (s.affirmationText.toLower.trim = s.targetAffirmation.toLower →
      (handleAffirmationDismiss now s).alarms =
        s.alarms.map (fun al => if al.id = a.id then { al with enabled := false } else al)) ∧
    (jsParseInt s.userAnswer = some s.mathProblem.answer →
      (handleDismissAlarm now s).alarms =
        s.alarms.map (fun al => if al.id = a.id then { al with enabled := false } else al)) ∧
    (handleSnoozeAlarm s).alarms = s.alarms := by
  refine ⟨?_, ?_, ?_, fun hm => ?_, fun hm => ?_, ?_⟩
  · simp [handleSimpleDismiss, disableOneShot, stopAlarmSound_alarms,
      stopAlarmSound_activeAlarm, hact, hdays]
  · simp [handleShakeDismiss, disableOneShot, stopAlarmSound_alarms,
      stopAlarmSound_activeAlarm, hact, hdays]
  · simp [handleBreathingDismiss, disableOneShot, stopAlarmSound_alarms,
      stopAlarmSound_activeAlarm, hact, hdays]
  · simp [handleAffirmationDismiss, hm, disableOneShot, stopAlarmSound_alarms,
      stopAlarmSound_activeAlarm, hact, hdays]
  · simp [handleDismissAlarm, hm, disableOneShot, stopAlarmSound_alarms,
      stopAlarmSound_activeAlarm, hact, hdays]
  · rw [handleSnoozeAlarm, hact]
    by_cases hz : a.snooze = 0
    · simp [hz]
    · simp [hz, stopAlarmSound_alarms]

/-- C4, witness for `oneshot_disable_exactly_on_dismiss` at a concrete state
whose active alarm is the one-shot 07:00 alarm. -/
theorem oneshot_disable_exactly_on_dismiss_witness :
    (handleSimpleDismiss 0 mathStateRight).alarms =
      mathStateRight.alarms.map
        (fun al => if al.id = (oneShotAt7 "a").id then { al with enabled := false } else al) ∧
    (handleSnoozeAlarm mathStateRight).alarms = mathStateRight.alarms := by
  have h := oneshot_disable_exactly_on_dismiss 0 mathStateRight (oneShotAt7 "a")
    (by decide) (by decide)
  exact ⟨h.1, h.2.2.2.2.2⟩

/-- C7. The optimal-wake suggestion returns `none` for histories shorter
than 7 entries (hard gate), and for 7 or more entries it agrees with the
specification-side computation: only the most recent 7 entries are used, the
midnight-aware average bedtime is formed with rounding, and the suggested
clock time is `(avgBedtime + 480) mod 1440` with the minute component
rounded to the nearest multiple of 5. -/
theorem optimalWake_hard_gate_and_formula (l : List SleepEntry) :
    (l.length < 7 → getOptimalWakeTime l = none) ∧
    (7 ≤ l.length →
      getOptimalWakeTime l = optimalWakeSpec l ∧ (getOptimalWakeTime l).isSome) := by
  constructor
  · intro h
    rw [getOptimalWakeTime, if_pos h]
  · intro h
    have hnl : ¬ l.length < 7 := by omega
    have hrecent : (l.reverse.take 7).reverse = l.drop (l.length - 7) := by
      rw [List.take_reverse, List.reverse_reverse]
    have hlen : (l.drop (l.length - 7)).length = 7 := by
      rw [List.length_drop]
      omega
    have hfun : normalizedBedtimeMinutes = preNoonNormalizedMinutes :=
      funext normalized_eq_preNoon
    constructor
    · simp only [getOptimalWakeTime, optimalWakeSpec, if_neg hnl, if_pos h, hrecent,
        hlen, hfun, jsRound, round_eq, Nat.cast_ofNat, mul_comm]
    · rw [getOptimalWakeTime, if_neg hnl]
      simp

/-- C7, witness for `optimalWake_hard_gate_and_formula`: six recorded nights
give `none`, seven give a defined suggestion agreeing with the
specification-side computation. -/
theorem optimalWake_hard_gate_and_formula_witness :
    getOptimalWakeTime sixNights = none ∧
    getOptimalWakeTime sevenNights = optimalWakeSpec sevenNights ∧
    (getOptimalWakeTime sevenNights).isSome := by
  refine ⟨(optimalWake_hard_gate_and_formula sixNights).1 (by decide), ?_, ?_⟩
  · exact ((optimalWake_hard_gate_and_formula sevenNights).2 (by decide)).1
  · exact ((optimalWake_hard_gate_and_formula sevenNights).2 (by decide)).2

/-- C9, counterexample. The claim says the phase timer toggles the volume at
every phase boundary, but the callback's `isPlaying` flag starts `true`, so
the first firing re-sets the initial volume while the sound is already
playing at that volume: for the ocean pattern at the energetic volume the
audible volume after the first firing equals the volume before it (and is
not the quiet volume), so no toggle happened at the first boundary. -/
theorem pattern_first_firing_not_a_toggle :
    (soundConfig AlarmSound.ocean).pattern = some [3000, 1500] ∧
    (patternRun [3000, 1500] (intensityVolume .energetic) 1).volume =
      (patternRun [3000, 1500] (intensityVolume .energetic) 0).volume ∧
    (patternRun [3000, 1500] (intensityVolume .energetic) 0).volume ≠ QUIET_VOLUME := by
  refine ⟨rfl, ?_, ?_⟩
  · simp [patternRun, patternStep, patternStart]
  · norm_num [patternRun, patternStart, intensityVolume, QUIET_VOLUME]

/-- C9, amended. The pattern timer sets the volume at each firing to the
initial volume and the fixed quiet volume 0.05 alternately, starting with
the initial volume (so the audible change begins at the second firing); the
quiet volume is never zero; the index advances circularly through the
pattern (`mod` the length, wrapping to 0 after the last element); and the
duration of the current phase entry schedules the next firing. -/
theorem pattern_scheduler_behavior (pattern : List Nat) (v : ℚ)
    (hp : pattern ≠ []) (n : Nat) :
    (patternRun pattern v (n + 1)).volume = (if n % 2 = 0 then v else QUIET_VOLUME) ∧
    (patternRun pattern v n).patternIndex = n ∧
    (patternStep pattern v (patternRun pattern v n)).2 =
      pattern.getD (n % pattern.length) 0 ∧
    n % pattern.length < pattern.length ∧
    QUIET_VOLUME ≠ 0 := by
  refine ⟨?_, patternRun_patternIndex pattern v n, ?_, ?_, by norm_num [QUIET_VOLUME]⟩
  · show (patternStep pattern v (patternRun pattern v n)).1.volume = _
    by_cases h2 : n % 2 = 0
    · have := (patternRun_isPlaying pattern v n).mpr h2
      simp [patternStep, this, h2]
    · have : (patternRun pattern v n).isPlaying = false := by
        cases hb : (patternRun pattern v n).isPlaying
        · rfl
        · exact absurd ((patternRun_isPlaying pattern v n).mp hb) h2
      simp [patternStep, this, h2]
  · simp [patternStep, patternRun_patternIndex pattern v n]
  · exact Nat.mod_lt _ (List.length_pos.mpr hp)

/-- C1. For every enabled repeating alarm (at least one weekday bit set,
the 7-bit day model of the data model, a valid hour and minute) and every
instant `now`, `getNextTriggerTimestamp` scans offsets 0..6 days from
`now`'s weekday and returns the first candidate whose weekday bit is set
and whose instant is strictly after `now`; when no candidate in that 7-day
window is strictly after `now` (which forces today's bit to be the only set
bit, today's fire time having passed), it returns the candidate on the same
weekday one week later rather than no occurrence. -/
theorem nextOccurrence_scan_and_week_wrap (now : Nat) (a : Alarm)
    (hen : a.enabled = true) (hrep : a.days.any (fun b => b) = true)
    (hlen : a.days.length = 7) (hh : a.hour < 24) (hm : a.minute < 60) :
    (∀ i, i < 7 → candidateOK now a i → (∀ j, j < i → ¬candidateOK now a j) →
      getNextTriggerTimestamp now a = some (dateAt now i a.hour a.minute)) ∧
    ((∀ i, i < 7 → ¬candidateOK now a i) →
      getNextTriggerTimestamp now a = some (dateAt now 7 a.hour a.minute) ∧
      weekdayOf (dateAt now 7 a.hour a.minute) = weekdayOf now ∧
      getNextTriggerTimestamp now a ≠ none) := by
  have hrange : List.range 7 = [0, 1, 2, 3, 4, 5, 6] := rfl
  have hnotall := all_not_eq_false_of_any a.days hrep
  have hopen : getNextTriggerTimestamp now a =
      match (List.range 7).findSome? (scanOffsetInstant now a) with
      | some t => some t
      | none => (List.range 7).findSome? (wrapOffsetInstant now a) := by
    rw [getNextTriggerTimestamp, if_neg (by simp [hen]), if_neg (by simp [hnotall])]
  constructor
  · intro i hi hok hmin
    have hfs : (List.range 7).findSome? (scanOffsetInstant now a) =
        some (dateAt now i a.hour a.minute) := by
      rw [hrange]
      interval_cases i
      · simp [List.findSome?_cons, scanOffsetInstant_some now a 0 hok]
      · simp [List.findSome?_cons, scanOffsetInstant_some now a 1 hok,
          scanOffsetInstant_none now a 0 (hmin 0 (by norm_num))]
      · simp [List.findSome?_cons, scanOffsetInstant_some now a 2 hok,
          scanOffsetInstant_none now a 0 (hmin 0 (by norm_num)),
          scanOffsetInstant_none now a 1 (hmin 1 (by norm_num))]
      · simp [List.findSome?_cons, scanOffsetInstant_some now a 3 hok,
          scanOffsetInstant_none now a 0 (hmin 0 (by norm_num)),
          scanOffsetInstant_none now a 1 (hmin 1 (by norm_num)),
          scanOffsetInstant_none now a 2 (hmin 2 (by norm_num))]
      · simp [List.findSome?_cons, scanOffsetInstant_some now a 4 hok,
          scanOffsetInstant_none now a 0 (hmin 0 (by norm_num)),
          scanOffsetInstant_none now a 1 (hmin 1 (by norm_num)),
          scanOffsetInstant_none now a 2 (hmin 2 (by norm_num)),
          scanOffsetInstant_none now a 3 (hmin 3 (by norm_num))]
      · simp [List.findSome?_cons, scanOffsetInstant_some now a 5 hok,
          scanOffsetInstant_none now a 0 (hmin 0 (by norm_num)),
          scanOffsetInstant_none now a 1 (hmin 1 (by norm_num)),
          scanOffsetInstant_none now a 2 (hmin 2 (by norm_num)),
          scanOffsetInstant_none now a 3 (hmin 3 (by norm_num)),
          scanOffsetInstant_none now a 4 (hmin 4 (by norm_num))]
      · simp [List.findSome?_cons, scanOffsetInstant_some now a 6 hok,
          scanOffsetInstant_none now a 0 (hmin 0 (by norm_num)),
          scanOffsetInstant_none now a 1 (hmin 1 (by norm_num)),
          scanOffsetInstant_none now a 2 (hmin 2 (by norm_num)),
          scanOffsetInstant_none now a 3 (hmin 3 (by norm_num)),
          scanOffsetInstant_none now a 4 (hmin 4 (by norm_num)),
          scanOffsetInstant_none now a 5 (hmin 5 (by norm_num))]
    rw [hopen, hfs]
  · intro hall
    have hfs : (List.range 7).findSome? (scanOffsetInstant now a) = none := by
      rw [hrange]
      simp [List.findSome?_cons,
        scanOffsetInstant_none now a 0 (hall 0 (by norm_num)),
        scanOffsetInstant_none now a 1 (hall 1 (by norm_num)),
        scanOffsetInstant_none now a 2 (hall 2 (by norm_num)),
        scanOffsetInstant_none now a 3 (hall 3 (by norm_num)),
        scanOffsetInstant_none now a 4 (hall 4 (by norm_num)),
        scanOffsetInstant_none now a 5 (hall 5 (by norm_num)),
        scanOffsetInstant_none now a 6 (hall 6 (by norm_num))]
    have hw : weekdayOf now < 7 := Nat.mod_lt _ (by norm_num)
    rcases List.any_eq_true.mp hrep with ⟨x, hxmem, hxtrue⟩
    rcases List.mem_iff_getElem.mp hxmem with ⟨j, hjlt, hjx⟩
    have hj7 : j < 7 := by rw [hlen] at hjlt; exact hjlt
    have hjset : a.days.getD j false = true := by
      rw [List.getD_eq_getElem a.days false hjlt, hjx]
      exact hxtrue
    set off := (j + 7 - weekdayOf now) % 7 with hoffdef
    have hoff7 : off < 7 := Nat.mod_lt _ (by norm_num)
    have hidx : (weekdayOf now + off) % 7 = j := by omega
    have hbit : a.days.getD (weekdayOf now) false = true := by
      rcases Nat.eq_zero_or_pos off with h0 | h0
      · have hjw : j = weekdayOf now := by omega
        rw [← hjw]
        exact hjset
      · exact absurd ⟨by rw [hidx]; exact hjset,
          future_candidate now a.hour a.minute off h0⟩ (hall off hoff7)
    have hwrap : (List.range 7).findSome? (wrapOffsetInstant now a) =
        some (dateAt now 7 a.hour a.minute) := by
      rw [hrange]
      have h0 : wrapOffsetInstant now a 0 = some (dateAt now 7 a.hour a.minute) := by
        unfold wrapOffsetInstant
        rw [show (weekdayOf now + 0) % 7 = weekdayOf now by omega, if_pos hbit]
      simp [List.findSome?_cons, h0]
    have hweek : weekdayOf (dateAt now 7 a.hour a.minute) = weekdayOf now := by
      simp only [weekdayOf, epochDay, dateAt, msPerDay, msPerHour, msPerMinute]
      omega
    exact ⟨by rw [hopen, hfs, hwrap], hweek, by rw [hopen, hfs, hwrap]; simp⟩

/-- C1, witness for `nextOccurrence_scan_and_week_wrap`: the Monday-only
07:00 alarm at 08:00 of a weekday-0 day fires at tomorrow's 07:00 (the
first qualifying offset), and the Sunday-only 07:00 alarm at the same
instant — today's bit set but today's time passed — wraps to 07:00 of the
same weekday one week later instead of yielding no occurrence. -/
theorem nextOccurrence_scan_and_week_wrap_witness :
    getNextTriggerTimestamp eightAM mondayAt7 = some (msPerDay + 7 * msPerHour) ∧
    getNextTriggerTimestamp eightAM sundayAt7 = some (7 * msPerDay + 7 * msPerHour) ∧
    getNextTriggerTimestamp eightAM sundayAt7 ≠ none := by
  refine ⟨?_, ?_, ?_⟩
  · have h := (nextOccurrence_scan_and_week_wrap eightAM mondayAt7
      (by decide) (by decide) (by decide) (by decide) (by decide)).1
      1 (by decide) (by decide) (by decide)
    exact h.trans (by decide)
  · have h := ((nextOccurrence_scan_and_week_wrap eightAM sundayAt7
      (by decide) (by decide) (by decide) (by decide) (by decide)).2 (by decide)).1
    exact h.trans (by decide)
  · exact ((nextOccurrence_scan_and_week_wrap eightAM sundayAt7
      (by decide) (by decide) (by decide) (by decide) (by decide)).2 (by decide)).2.2

/-- C2, counterexample. With two enabled one-shot alarms both due at 07:00,
a single tick triggers the first alarm — a session is then active with its
sound playing — and then, far from ignoring the second trigger, triggers
the second alarm too: the final state of the tick shows two trigger
invocations, the visible session replaced by the second alarm, and two
concurrently playing sound handles. -/
theorem second_session_not_ignored_while_active :
    (tick zeroDraws sevenAM twoAlarmState).triggerLog = [("a", 7, 0), ("b", 7, 0)] ∧
    (tick zeroDraws sevenAM twoAlarmState).activeAlarm = some (oneShotAt7 "b") ∧
    (tick zeroDraws sevenAM twoAlarmState).playingHandles = [0, 1] := by
  have h := tick_two_due_alarms zeroDraws sevenAM twoAlarmState
    (oneShotAt7 "a") (oneShotAt7 "b") rfl (by decide) (by decide) (by decide) (by decide)
    (by decide) (by decide) (by decide) (by decide) (by decide) (by decide)
  refine ⟨?_, h.2.1, ?_⟩
  · have := h.1
    simpa [twoAlarmState, mkState] using this
  · have := h.2.2.1
    simpa [twoAlarmState, mkState] using this

/-- C2, amended. The tick loop has no active-session guard: the dedup slot
only blocks re-triggering the same alarm key. When a second, distinct alarm
is due while the first alarm's session is active, the loop triggers it as
well (in list order): the session of the last-triggered alarm wins the
single alert screen, and each trigger starts a further concurrently playing
sound handle without stopping the previous one. -/
theorem tick_lacks_active_session_guard (d : Nat → Draws) (now : Nat) (s : AppState)
    (x y : Alarm)
    (halarms : s.alarms = [x, y])
    (hx1 : x.enabled = true) (hy1 : y.enabled = true)
    (hx2 : x.hour = dateHours now) (hy2 : y.hour = dateHours now)
    (hx3 : x.minute = dateMinutes now) (hy3 : y.minute = dateMinutes now)
    (hx4 : (x.days.all (fun b => !b) || x.days.getD (weekdayOf now) false) = true)
    (hy4 : (y.days.all (fun b => !b) || y.days.getD (weekdayOf now) false) = true)
    (hkx : s.lastTriggered ≠ alarmKeyOf x now)
    (hkxy : alarmKeyOf x now ≠ alarmKeyOf y now) :
    (tick d now s).triggerLog =
      s.triggerLog ++ [(x.id, dateHours now, dateMinutes now),
                       (y.id, dateHours now, dateMinutes now)] ∧
    (tick d now s).activeAlarm = some y ∧
    (tick d now s).playingHandles = s.playingHandles ++ [s.nextHandle, s.nextHandle + 1] ∧
    (tick d now s).alarmScreenVisible = true :=
  have h := tick_two_due_alarms d now s x y halarms hx1 hy1 hx2 hy2 hx3 hy3 hx4 hy4 hkx hkxy
  ⟨h.1, h.2.1, h.2.2.1, h.2.2.2.2.1⟩

/-- C2, witness for `tick_lacks_active_session_guard` at the concrete
two-alarm state. -/
theorem tick_lacks_active_session_guard_witness :
    (tick zeroDraws sevenAM twoAlarmState).activeAlarm = some (oneShotAt7 "b") ∧
    (tick zeroDraws sevenAM twoAlarmState).alarmScreenVisible = true :=
  have h := tick_lacks_active_session_guard zeroDraws sevenAM twoAlarmState
    (oneShotAt7 "a") (oneShotAt7 "b") rfl (by decide) (by decide) (by decide) (by decide)
    (by decide) (by decide) (by decide) (by decide) (by decide) (by decide)
  ⟨h.2.1, h.2.2.2⟩

/-- C3. The single-slot dedup key fails when two alarms are due in the same
minute: with alarms `a` and `b` both due at 07:00, the first tick triggers
`a` then `b` (the slot ends at `b`'s key), so a second tick in the same
minute triggers `a` again — the dismissal entry point runs twice for the key
`("a", 7, 0)` within one calendar minute, contradicting the at-most-once
dedup the code's own comment promises. -/
theorem same_minute_refire_with_two_alarms :
    dateHours sevenAM = 7 ∧ dateMinutes sevenAM = 0 ∧
    (tick zeroDraws sevenAM twoAlarmState).triggerLog = [("a", 7, 0), ("b", 7, 0)] ∧
    (tick zeroDraws sevenAM (tick zeroDraws sevenAM twoAlarmState)).triggerLog =
      [("a", 7, 0), ("b", 7, 0), ("a", 7, 0), ("b", 7, 0)] ∧
    (tick zeroDraws sevenAM (tick zeroDraws sevenAM twoAlarmState)).triggerLog.count
      ("a", 7, 0) = 2 := by
  have h1 := tick_two_due_alarms zeroDraws sevenAM twoAlarmState
    (oneShotAt7 "a") (oneShotAt7 "b") rfl (by decide) (by decide) (by decide) (by decide)
    (by decide) (by decide) (by decide) (by decide) (by decide) (by decide)
  have hlog1 : (tick zeroDraws sevenAM twoAlarmState).triggerLog =
      [("a", 7, 0), ("b", 7, 0)] := by
    have := h1.1
    simpa [twoAlarmState, mkState] using this
  have halarms1 : (tick zeroDraws sevenAM twoAlarmState).alarms =
      [oneShotAt7 "a", oneShotAt7 "b"] := by
    have := h1.2.2.2.2.2.1
    simpa [twoAlarmState, mkState] using this
  have hlast1 : (tick zeroDraws sevenAM twoAlarmState).lastTriggered =
      alarmKeyOf (oneShotAt7 "b") sevenAM := h1.2.2.2.2.2.2
  have h2 := tick_two_due_alarms zeroDraws sevenAM (tick zeroDraws sevenAM twoAlarmState)
    (oneShotAt7 "a") (oneShotAt7 "b") halarms1 (by decide) (by decide) (by decide)
    (by decide) (by decide) (by decide) (by decide) (by decide)
    (by rw [hlast1]; decide) (by decide)
  have hlog2 : (tick zeroDraws sevenAM (tick zeroDraws sevenAM twoAlarmState)).triggerLog =
      [("a", 7, 0), ("b", 7, 0), ("a", 7, 0), ("b", 7, 0)] := by
    have := h2.1
    rw [hlog1] at this
    simpa using this
  refine ⟨by decide, by decide, hlog1, hlog2, ?_⟩
  rw [hlog2]
  decide

/-- C9, witness for `pattern_scheduler_behavior` at the ocean pattern with
initial volume 1 and firing index 1: the second firing sets the quiet volume
and the delay armed at the second firing is the 1500 ms phase entry. -/
theorem pattern_scheduler_behavior_witness :
    (patternRun [3000, 1500] 1 2).volume = QUIET_VOLUME ∧
    (patternStep [3000, 1500] 1 (patternRun [3000, 1500] 1 1)).2 = 1500 := by
  have h := pattern_scheduler_behavior [3000, 1500] 1 (by decide) 1
  exact ⟨by simpa using h.1, by simpa using h.2.2.1⟩

end SoftWake
